import Mathlib

/-!
Verification of the provider fallback and health-tracking core of the
sre-alert-multi service, shallowly embedded from the Python sources
(`config.py`, `utils/model_factory.py`, `utils/fallback_manager.py`,
`app.py`, and the `models/` provider variants).

Backend interactions (SDK client construction, credential validation,
analysis calls, the notification sink) are modelled by an explicit
environment of oracles, one per operation, so that the deterministic
control flow of the Python code becomes a pure function of that
environment.
-/

/-- Python truthiness of an `Optional[str]` configuration value:
`None` and the empty string are falsy, any other string is truthy. -/
def optPresent : Option String → Bool
  | none => false
  | some s => s != ""

/-- Python `str.lower()` for the ASCII provider names of this codebase,
written by structural recursion over the character list so that it
evaluates by kernel reduction. -/
def pyLower (s : String) : String :=
  String.mk (s.data.map Char.toLower)

/-- Mirrors `config.py` `Config`: the environment-derived configuration
fields read by the factory and the fallback manager.  `OLLAMA_BASE_URL`
is a plain string (it has a default in the source); the three API keys
are `Optional[str]`. -/
structure Config where
  AI_MODEL_PROVIDER : String
  AI_MODEL_NAME : String
  ANTHROPIC_API_KEY : Option String
  OPENAI_API_KEY : Option String
  GOOGLE_API_KEY : Option String
  OLLAMA_BASE_URL : String
deriving Repr, DecidableEq

/-- A Python exception as classified by the factory code: `ValueError`
(the configuration error raised by `_create_*_provider` and by the
unsupported-provider branch) versus any other exception (e.g.
`ImportError` or an SDK constructor failure).  The payload is `str(e)`. -/
inductive PyError where
  | valueError (msg : String)
  | other (msg : String)
deriving Repr, DecidableEq

/-- Python `str(e)` of a raised exception value. -/
def pyErrStr : PyError → String
  | .valueError m => m
  | .other m => m

/-- Python `str(last_error)` where `last_error` may still be `None`. -/
def pyStrOfOption : Option String → String
  | none => "None"
  | some s => s

/-- The external world the providers talk to, one oracle per backend
operation: `construct` models the SDK client construction inside the
claude / openai / gemini `__init__` (which can raise, e.g. `ImportError`);
`validate` models `validate_credentials()` (total and `Bool`-valued —
the provider implementations catch every exception themselves, see the
`*.validate_credentials` functions below); `analyze` models
`analyze_alert`, which either returns the analysis text or raises an
exception whose `str` is the error payload. -/
structure ProviderEnv where
  construct : String → Except String Unit
  validate : String → Bool
  analyze : String → Except String String

/-- A provider instance as visible to the orchestrator: every variant's
`__init__` stores the `model_name` argument via `AIModelProvider.__init__`. -/
structure Provider where
  model_name : String
deriving Repr, DecidableEq

/-- Mirrors `ModelFactory._create_ollama_provider`: raises `ValueError`
when `OLLAMA_BASE_URL` is falsy; the `OllamaProvider.__init__` body is
pure string manipulation and cannot raise. -/
def ModelFactory.createOllama (cfg : Config) (model_name : String) :
    Except PyError Provider :=
  if cfg.OLLAMA_BASE_URL == "" then
    .error (.valueError "OLLAMA_BASE_URL is required for Ollama provider")
  else
    .ok { model_name := model_name }

/-- Mirrors `ModelFactory._create_claude_provider`: raises `ValueError`
when `ANTHROPIC_API_KEY` is falsy, then runs `ClaudeProvider.__init__`
(SDK import plus `anthropic.Anthropic(...)`), modelled by
`env.construct "claude"`. -/
def ModelFactory.createClaude (cfg : Config) (env : ProviderEnv)
    (model_name : String) : Except PyError Provider :=
  if optPresent cfg.ANTHROPIC_API_KEY then
    match env.construct "claude" with
    | .ok _ => .ok { model_name := model_name }
    | .error m => .error (.other m)
  else
    .error (.valueError "ANTHROPIC_API_KEY is required for Claude provider")

/-- Mirrors `ModelFactory._create_openai_provider`. -/
def ModelFactory.createOpenAI (cfg : Config) (env : ProviderEnv)
    (model_name : String) : Except PyError Provider :=
  if optPresent cfg.OPENAI_API_KEY then
    match env.construct "openai" with
    | .ok _ => .ok { model_name := model_name }
    | .error m => .error (.other m)
  else
    .error (.valueError "OPENAI_API_KEY is required for OpenAI provider")

/-- Mirrors `ModelFactory._create_gemini_provider`. -/
def ModelFactory.createGemini (cfg : Config) (env : ProviderEnv)
    (model_name : String) : Except PyError Provider :=
  if optPresent cfg.GOOGLE_API_KEY then
    match env.construct "gemini" with
    | .ok _ => .ok { model_name := model_name }
    | .error m => .error (.other m)
  else
    .error (.valueError "GOOGLE_API_KEY is required for Gemini provider")

/-- Mirrors `ModelFactory.create_provider`: Python `or` falls back to the
configured provider / model on a falsy argument, the name is lowercased,
and an unsupported name raises `ValueError`. -/
def ModelFactory.create_provider (cfg : Config) (env : ProviderEnv)
    (provider_name model_name : String) : Except PyError Provider :=
  let provider :=
    pyLower (if provider_name == "" then cfg.AI_MODEL_PROVIDER else provider_name)
  let model := if model_name == "" then cfg.AI_MODEL_NAME else model_name
  if provider == "ollama" then ModelFactory.createOllama cfg model
  else if provider == "claude" then ModelFactory.createClaude cfg env model
  else if provider == "openai" then ModelFactory.createOpenAI cfg env model
  else if provider == "gemini" then ModelFactory.createGemini cfg env model
  else
    .error (.valueError ("Unsupported provider " ++ provider ++
      ". Supported providers: claude, openai, gemini, ollama"))

/-- One `try/except ValueError` block of `ModelFactory.get_available_providers`:
a successful construction reports `True`, a `ValueError` is caught and
reports `False`, any other exception propagates. -/
def availCheck (r : Except PyError Provider) : Except PyError Bool :=
  match r with
  | .ok _ => .ok true
  | .error (.valueError _) => .ok false
  | .error e => .error e

/-- Mirrors `ModelFactory.get_available_providers`: tries the four
`_create_*_provider` constructors with `Config.AI_MODEL_NAME`, in the
source order ollama, claude, openai, gemini, catching only `ValueError`;
the resulting association list keeps Python dict insertion order. -/
def ModelFactory.get_available_providers (cfg : Config) (env : ProviderEnv) :
    Except PyError (List (String × Bool)) :=
  match availCheck (ModelFactory.createOllama cfg cfg.AI_MODEL_NAME) with
  | .error e => .error e
  | .ok o =>
    match availCheck (ModelFactory.createClaude cfg env cfg.AI_MODEL_NAME) with
    | .error e => .error e
    | .ok c =>
      match availCheck (ModelFactory.createOpenAI cfg env cfg.AI_MODEL_NAME) with
      | .error e => .error e
      | .ok oa =>
        match availCheck (ModelFactory.createGemini cfg env cfg.AI_MODEL_NAME) with
        | .error e => .error e
        | .ok g =>
          .ok [("ollama", o), ("claude", c), ("openai", oa), ("gemini", g)]

/-- Mirrors `FallbackManager._get_model_for_provider`: the configured
model when the candidate matches the configured provider, otherwise a
fixed per-backend default, with `Config.AI_MODEL_NAME` as the
`dict.get` default for unknown names. -/
def getModelForProvider (cfg : Config) (provider_name : String) : String :=
  if pyLower provider_name == pyLower cfg.AI_MODEL_PROVIDER then cfg.AI_MODEL_NAME
  else if pyLower provider_name == "claude" then "claude-3-haiku-20240307"
  else if pyLower provider_name == "openai" then "gpt-3.5-turbo"
  else if pyLower provider_name == "gemini" then "gemini-2.5-flash"
  else if pyLower provider_name == "ollama" then "qwen2:0.5b"
  else cfg.AI_MODEL_NAME

/-- A backend-directed call observable in a run: provider instantiation,
the credential validation call, or the analysis call. -/
inductive Call where
  | create (p : String)
  | validate (p : String)
  | analyze (p : String)
deriving Repr, DecidableEq

/-- The dictionary returned by `FallbackManager.analyze_with_fallback`,
one constructor per return-statement shape: the success dict has keys
`success, analysis, provider_used, model_used, fallback_used`; the
failure dict has keys `success, error, providers_tried`. -/
inductive AnalysisOutcome where
  | ok (analysis provider_used model_used : String) (fallback_used : Bool)
  | failed (error : String) (providers_tried : List String)
deriving Repr, DecidableEq

/-- The `success` field of the returned dictionary. -/
def AnalysisOutcome.isSuccess : AnalysisOutcome → Bool
  | .ok _ _ _ _ => true
  | .failed _ _ => false

/-- `result.get("providers_tried")`: present only on the failure dict. -/
def AnalysisOutcome.get_providers_tried : AnalysisOutcome → Option (List String)
  | .ok _ _ _ _ => none
  | .failed _ l => some l

/-- The `fallback_used` field, absent from the failure dict. -/
def AnalysisOutcome.get_fallback_used : AnalysisOutcome → Option Bool
  | .ok _ _ _ fb => some fb
  | .failed _ _ => none

/-- The `for provider_name in providers_to_try` loop of
`FallbackManager.analyze_with_fallback`, also recording the trace of
backend-directed calls.  Per candidate: `create_provider` raising is
caught by the `except Exception` arm (which updates `last_error` and
continues); a `False` from `validate_credentials` hits `continue`
without touching `last_error`; `analyze_alert` raising updates
`last_error`; a returned string makes the loop return the success dict
at once.  `allCandidates` is the `providers_to_try` list referenced by
the final failure dict. -/
def FallbackManager.runCandidates (cfg : Config) (env : ProviderEnv)
    (primary : String) (allCandidates : List String) :
    List String → Option String → AnalysisOutcome × List Call
  | [], lastError =>
      (.failed ("All AI providers failed. Last error: " ++ pyStrOfOption lastError)
        allCandidates, [])
  | p :: rest, lastError =>
      match ModelFactory.create_provider cfg env p (getModelForProvider cfg p) with
      | .error e =>
          let r := FallbackManager.runCandidates cfg env primary allCandidates rest
            (some (pyErrStr e))
          (r.1, Call.create p :: r.2)
      | .ok prov =>
          if env.validate p then
            match env.analyze p with
            | .ok text =>
                (.ok text p prov.model_name (p != primary),
                  [Call.create p, Call.validate p, Call.analyze p])
            | .error e =>
                let r := FallbackManager.runCandidates cfg env primary allCandidates
                  rest (some e)
                (r.1, Call.create p :: Call.validate p :: Call.analyze p :: r.2)
          else
            let r := FallbackManager.runCandidates cfg env primary allCandidates
              rest lastError
            (r.1, Call.create p :: Call.validate p :: r.2)

/-- Mirrors `FallbackManager.analyze_with_fallback` for a manager whose
state is `primary` and `fallbacks`: the candidate list is
`[self.primary_provider] + self.fallback_providers` and `last_error`
starts as `None`.  Returns the outcome dict together with the trace of
backend-directed calls performed. -/
def FallbackManager.analyze_with_fallback (cfg : Config) (env : ProviderEnv)
    (primary : String) (fallbacks : List String) : AnalysisOutcome × List Call :=
  FallbackManager.runCandidates cfg env primary (primary :: fallbacks)
    (primary :: fallbacks) none

/-- Whether the attempt on candidate `p` fails (configuration error,
credential validation returning `False`, or `analyze_alert` raising),
as decided by the environment. -/
def attemptFails (cfg : Config) (env : ProviderEnv) (p : String) : Bool :=
  match ModelFactory.create_provider cfg env p (getModelForProvider cfg p) with
  | .error _ => true
  | .ok _ =>
      if env.validate p then
        match env.analyze p with
        | .ok _ => false
        | .error _ => true
      else true

/-- The backend-directed calls one candidate attempt performs. -/
def callsOf (cfg : Config) (env : ProviderEnv) (p : String) : List Call :=
  match ModelFactory.create_provider cfg env p (getModelForProvider cfg p) with
  | .error _ => [Call.create p]
  | .ok _ =>
      if env.validate p then [Call.create p, Call.validate p, Call.analyze p]
      else [Call.create p, Call.validate p]

/-- The error the attempt on candidate `p` raises, if any: configuration
errors and `analyze_alert` exceptions update `last_error`, a `False`
from credential validation does not. -/
def raisedOf (cfg : Config) (env : ProviderEnv) (p : String) : Option String :=
  match ModelFactory.create_provider cfg env p (getModelForProvider cfg p) with
  | .error e => some (pyErrStr e)
  | .ok _ =>
      if env.validate p then
        match env.analyze p with
        | .ok _ => none
        | .error e => some e
      else none

/-- The value of `last_error` after attempting every candidate in `l`,
starting from `init`: the most recent raised error, if any. -/
def lastErrAfter (cfg : Config) (env : ProviderEnv) (l : List String)
    (init : Option String) : Option String :=
  l.foldl (fun acc p =>
    match raisedOf cfg env p with
    | some e => some e
    | none => acc) init

/-- One per-backend status dictionary produced by
`FallbackManager.get_provider_status`; `error := none` models the
absence of the `error` key. -/
structure StatusEntry where
  available : Bool
  credentials_valid : Bool
  model : Option String
  ready : Bool
  error : Option String
deriving Repr, DecidableEq

/-- The status entry the source builds for a backend the factory reports
unconfigured: no provider is created and no live check is attempted. -/
def unconfiguredEntry : StatusEntry :=
  { available := false, credentials_valid := false, model := none,
    ready := false, error := none }

/-- One iteration of the `get_provider_status` loop body for backend
`name` with factory availability `isAvail`, together with the
backend-directed calls it performs.  The `try/except Exception` around
the body turns any raised exception into the entry that carries the
`error` key. -/
def statusEntryFor (cfg : Config) (env : ProviderEnv) (name : String)
    (isAvail : Bool) : StatusEntry × List Call :=
  if isAvail then
    match ModelFactory.create_provider cfg env name (getModelForProvider cfg name) with
    | .ok prov =>
        let cv := env.validate name
        ({ available := true, credentials_valid := cv, model := some prov.model_name,
           ready := cv, error := none }, [Call.create name, Call.validate name])
    | .error e =>
        ({ available := false, credentials_valid := false, model := none,
           ready := false, error := some (pyErrStr e) }, [Call.create name])
  else
    (unconfiguredEntry, [])

/-- The `for provider_name, is_available in available_providers.items()`
loop of `get_provider_status`, accumulating entries in iteration order
and the concatenated call trace. -/
def statusLoop (cfg : Config) (env : ProviderEnv) :
    List (String × Bool) → List (String × StatusEntry) × List Call
  | [] => ([], [])
  | (n, b) :: rest =>
      let e := statusEntryFor cfg env n b
      let r := statusLoop cfg env rest
      ((n, e.1) :: r.1, e.2 ++ r.2)

/-- Mirrors `FallbackManager.get_provider_status`: asks the factory
which backends are configured (this call can itself raise, and nothing
catches it here), then builds one status entry per backend. -/
def FallbackManager.get_provider_status (cfg : Config) (env : ProviderEnv) :
    Except PyError (List (String × StatusEntry) × List Call) :=
  match ModelFactory.get_available_providers cfg env with
  | .error e => .error e
  | .ok avail => .ok (statusLoop cfg env avail)

/-- `sum(1 for status in provider_status.values() if status.get("ready", False))`. -/
def readyCount (l : List (String × StatusEntry)) : Nat :=
  (l.filter fun q => q.2.ready).length

/-- The `_health_state` dictionary of `app.py`. -/
structure HealthState where
  status : String
  current_provider : String
  current_model : String
  ready_providers : Nat
  total_providers : Nat
  provider_details : List (String × StatusEntry)
  last_updated : Option Nat
  error : Option String
deriving Repr, DecidableEq

/-- The module-level initial `_health_state` of `app.py`. -/
def initial_health_state (cfg : Config) : HealthState :=
  { status := "unknown", current_provider := cfg.AI_MODEL_PROVIDER,
    current_model := cfg.AI_MODEL_NAME, ready_providers := 0,
    total_providers := 0, provider_details := [], last_updated := none,
    error := none }

/-- Mirrors `refresh_provider_status` in `app.py`: one poll cycle, taking
the previous snapshot and the current time, and returning the dictionary
that replaces `_health_state`.  A successful poll derives
`healthy` / `degraded` from the ready count; a poll that raises writes
the `unhealthy` snapshot with the error captured. -/
def refresh_provider_status (cfg : Config) (env : ProviderEnv)
    (old : HealthState) (now : Nat) : HealthState :=
  match FallbackManager.get_provider_status cfg env with
  | .ok ps =>
      let ready := readyCount ps.1
      { old with
        status := if ready > 0 then "healthy" else "degraded",
        ready_providers := ready,
        total_providers := ps.1.length,
        provider_details := ps.1,
        last_updated := some now,
        error := none }
  | .error e =>
      { old with
        status := "unhealthy",
        ready_providers := 0,
        total_providers := 0,
        provider_details := [],
        last_updated := some now,
        error := some (pyErrStr e) }

/-- Mirrors the `/health` handler `health_check` in `app.py`: serves the
cached snapshot, with HTTP 503 exactly when its status is `unhealthy`
and HTTP 200 otherwise. -/
def health_check (st : HealthState) : HealthState × Nat :=
  (st, if st.status == "unhealthy" then 503 else 200)

/-- The JSON body plus HTTP status code of a `/alert` response; `none`
fields model absent keys. -/
structure AlertResponse where
  code : Nat
  status : String
  message : String
  providers_tried : Option (List String)
  provider : Option String
  fallback_used : Option Bool
  model : Option String
deriving Repr, DecidableEq

/-- Mirrors the `/alert` handler `receive_alert` in `app.py`.  `parsed`
is the result of `request.get_json()`: `none` models a body that is not
valid JSON (the handler then returns 400 before touching any provider).
`discord` models the notification sink call: the delivered HTTP status
code, or a transport error message.  The returned call trace records
every backend-directed call the request performed. -/
def receive_alert (cfg : Config) (env : ProviderEnv) (primary : String)
    (fallbacks : List String) (parsed : Option Unit)
    (discord : Except String Nat) : AlertResponse × List Call :=
  match parsed with
  | none =>
      ({ code := 400, status := "error",
         message := "Request body must be valid JSON", providers_tried := none,
         provider := none, fallback_used := none, model := none }, [])
  | some _ =>
      let r := FallbackManager.analyze_with_fallback cfg env primary fallbacks
      match r.1 with
      | .failed err tried =>
          ({ code := 500, status := "error", message := err,
             providers_tried := some tried, provider := none,
             fallback_used := none, model := none }, r.2)
      | .ok _analysis prov model fb =>
          match discord with
          | .error e =>
              ({ code := 500, status := "error",
                 message := "Failed to send Discord notification: " ++ e,
                 providers_tried := none, provider := none, fallback_used := none,
                 model := none }, r.2)
          | .ok dc =>
              if dc == 204 then
                ({ code := 200, status := "success",
                   message := "Alert received and processed",
                   providers_tried := none, provider := some prov,
                   fallback_used := some fb, model := some model }, r.2)
              else
                ({ code := 500, status := "error",
                   message := "Failed to send message to Discord",
                   providers_tried := none, provider := none,
                   fallback_used := none, model := none }, r.2)

/-- The JSON body plus HTTP status code of a `/status` response. -/
structure StatusResponse where
  code : Nat
  status : String
  error : Option String
  ready_providers : Option Nat
  total_providers : Option Nat
deriving Repr, DecidableEq

/-- Mirrors the `/status` handler in `app.py`: recomputes provider
status synchronously; if `get_provider_status` raises, the `except`
branch returns the `unhealthy` body with HTTP status code 50 (as
written in the source). -/
def status_endpoint (cfg : Config) (env : ProviderEnv) : StatusResponse :=
  match FallbackManager.get_provider_status cfg env with
  | .ok ps =>
      let ready := readyCount ps.1
      { code := 200, status := if ready > 0 then "healthy" else "degraded",
        error := none, ready_providers := some ready,
        total_providers := some ps.1.length }
  | .error e =>
      { code := 50, status := "unhealthy", error := some (pyErrStr e),
        ready_providers := none, total_providers := none }

/-- The outcome of one call into a backend SDK or HTTP endpoint: a value
of the response shape, or a raised exception (timeouts included). -/
inductive NetResult (α : Type) where
  | ok (v : α)
  | exn (msg : String)
deriving Repr, DecidableEq

/-- Mirrors `ClaudeProvider.validate_credentials` in `models/claude.py`:
`False` on a falsy key without any call; otherwise `True` exactly when
the minimal `messages.create` call returns, every exception caught. -/
def ClaudeProvider.validate_credentials (api_key : String)
    (call : NetResult Unit) : Bool :=
  if api_key == "" then false
  else
    match call with
    | .ok _ => true
    | .exn _ => false

/-- Mirrors `OpenAIProvider.validate_credentials` in `models/openai.py`:
same shape as the claude variant around `chat.completions.create`. -/
def OpenAIProvider.validate_credentials (api_key : String)
    (call : NetResult Unit) : Bool :=
  if api_key == "" then false
  else
    match call with
    | .ok _ => true
    | .exn _ => false

/-- Mirrors `OllamaProvider.validate_credentials` in `models/ollama.py`:
`True` exactly when the test POST returns HTTP 200, every exception
(timeout included) caught and logged. -/
def OllamaProvider.validate_credentials (call : NetResult Nat) : Bool :=
  match call with
  | .ok status_code => status_code == 200
  | .exn _ => false

/-- Mirrors `GeminiProvider.validate_credentials` in `models/gemini.py`:
`False` on a falsy key; otherwise `response.text is not None` for the
minimal generation, every exception caught and logged. -/
def GeminiProvider.validate_credentials (api_key : String)
    (call : NetResult (Option String)) : Bool :=
  if api_key == "" then false
  else
    match call with
    | .ok text => text.isSome
    | .exn _ => false

/-- A concrete configuration with every backend configured; the
configured provider is claude. -/
def cfgA : Config :=
  { AI_MODEL_PROVIDER := "claude", AI_MODEL_NAME := "claude-3-haiku-20240307",
    ANTHROPIC_API_KEY := some "k-anthropic", OPENAI_API_KEY := some "k-openai",
    GOOGLE_API_KEY := some "k-google", OLLAMA_BASE_URL := "http://ollama:5000" }

/-- A concrete environment: constructions succeed, credentials validate,
and only the openai analysis call returns text. -/
def envA : ProviderEnv :=
  { construct := fun _ => .ok (),
    validate := fun _ => true,
    analyze := fun p => if p == "openai" then .ok "analysis-text" else .error "boom" }

/-- A concrete configuration with the claude API key absent. -/
def cfgB : Config :=
  { AI_MODEL_PROVIDER := "ollama", AI_MODEL_NAME := "qwen2:0.5b",
    ANTHROPIC_API_KEY := none, OPENAI_API_KEY := some "k-openai",
    GOOGLE_API_KEY := some "k-google", OLLAMA_BASE_URL := "http://ollama:5000" }

/-- A concrete environment where every SDK client construction raises. -/
def envErr : ProviderEnv :=
  { construct := fun _ => .error "client construction failed",
    validate := fun _ => true,
    analyze := fun _ => .error "unreachable" }

/-- A concrete environment where every attempt fails: gemini at the
credential-validation stage, every other backend at the analysis stage. -/
def envFail : ProviderEnv :=
  { construct := fun _ => .ok (),
    validate := fun p => p != "gemini",
    analyze := fun _ => .error "api down" }

/-- Attempting a prefix of failing candidates only advances `last_error`
to the most recent raised error and records their calls, then continues
with the remaining candidates. -/
theorem runCandidates_skip (cfg : Config) (env : ProviderEnv) (primary : String)
    (allCandidates : List String) :
    ∀ (pre rest : List String) (lastErr : Option String),
      (∀ q ∈ pre, attemptFails cfg env q = true) →
      FallbackManager.runCandidates cfg env primary allCandidates (pre ++ rest) lastErr =
        ((FallbackManager.runCandidates cfg env primary allCandidates rest
            (lastErrAfter cfg env pre lastErr)).1,
         pre.flatMap (callsOf cfg env) ++
           (FallbackManager.runCandidates cfg env primary allCandidates rest
             (lastErrAfter cfg env pre lastErr)).2) := by
  intro pre
  induction pre with
  | nil =>
      intro rest lastErr _
      simp [lastErrAfter]
  | cons q pre ih =>
      intro rest lastErr hfail
      have hq : attemptFails cfg env q = true := hfail q (List.mem_cons_self q pre)
      have hpre : ∀ r ∈ pre, attemptFails cfg env r = true := fun r hr =>
        hfail r (List.mem_cons_of_mem q hr)
      cases hc : ModelFactory.create_provider cfg env q (getModelForProvider cfg q) with
      | error e =>
          have hlast : lastErrAfter cfg env (q :: pre) lastErr =
              lastErrAfter cfg env pre (some (pyErrStr e)) := by
            simp [lastErrAfter, List.foldl_cons, raisedOf, hc]
          have hih := ih rest (some (pyErrStr e)) hpre
          simp [FallbackManager.runCandidates, hc, callsOf, hlast, hih]
      | ok prov =>
          cases hv : env.validate q with
          | false =>
              have hlast : lastErrAfter cfg env (q :: pre) lastErr =
                  lastErrAfter cfg env pre lastErr := by
                simp [lastErrAfter, List.foldl_cons, raisedOf, hc, hv]
              have hih := ih rest lastErr hpre
              simp [FallbackManager.runCandidates, hc, hv, callsOf, hlast, hih]
          | true =>
              cases ha : env.analyze q with
              | ok text =>
                  exfalso
                  simp [attemptFails, hc, hv, ha] at hq
              | error e =>
                  have hlast : lastErrAfter cfg env (q :: pre) lastErr =
                      lastErrAfter cfg env pre (some e) := by
                    simp [lastErrAfter, List.foldl_cons, raisedOf, hc, hv, ha]
                  have hih := ih rest (some e) hpre
                  simp [FallbackManager.runCandidates, hc, hv, ha, callsOf, hlast, hih]

/-- A failure dict produced by the candidate loop always carries the
full `providers_to_try` list. -/
theorem runCandidates_failed_eq_all (cfg : Config) (env : ProviderEnv)
    (primary : String) (allCandidates : List String) :
    ∀ (rest : List String) (lastErr : Option String) (e : String) (l : List String),
      (FallbackManager.runCandidates cfg env primary allCandidates rest lastErr).1 =
        .failed e l → l = allCandidates := by
  intro rest
  induction rest with
  | nil =>
      intro lastErr e l h
      simp only [FallbackManager.runCandidates, AnalysisOutcome.failed.injEq] at h
      exact h.2.symm
  | cons p rest ih =>
      intro lastErr e l h
      simp only [FallbackManager.runCandidates] at h
      cases hc : ModelFactory.create_provider cfg env p (getModelForProvider cfg p) with
      | error er =>
          rw [hc] at h
          exact ih (some (pyErrStr er)) e l h
      | ok prov =>
          rw [hc] at h
          cases hv : env.validate p with
          | false =>
              rw [hv] at h
              simp only [Bool.false_eq_true, if_false] at h
              exact ih lastErr e l h
          | true =>
              rw [hv] at h
              simp only [if_true] at h
              cases ha : env.analyze p with
              | ok text =>
                  rw [ha] at h
                  simp at h
              | error er =>
                  rw [ha] at h
                  exact ih (some er) e l h

/-- Claim C1: for every alert and candidate sequence (primary followed
by the fallback list), `analyze_with_fallback` tries candidates strictly
in order and returns at the first candidate whose analysis call returns
a string: the result is the success dict with `provider_used` equal to
that candidate and `fallback_used = (candidate != primary)`, and the
call trace shows that no later candidate is instantiated, validated, or
called — it consists exactly of the failing prefix's calls followed by
the successful candidate's three calls. -/
theorem claim1_first_success (cfg : Config) (env : ProviderEnv)
    (primary : String) (fallbacks pre post : List String) (p : String)
    (prov : Provider) (text : String)
    (hsplit : primary :: fallbacks = pre ++ p :: post)
    (hpre : ∀ q ∈ pre, attemptFails cfg env q = true)
    (hcreate : ModelFactory.create_provider cfg env p (getModelForProvider cfg p) =
      .ok prov)
    (hval : env.validate p = true)
    (hana : env.analyze p = .ok text) :
    FallbackManager.analyze_with_fallback cfg env primary fallbacks =
      (.ok text p prov.model_name (p != primary),
       pre.flatMap (callsOf cfg env) ++
         [Call.create p, Call.validate p, Call.analyze p]) := by
  unfold FallbackManager.analyze_with_fallback
  rw [hsplit]
  rw [runCandidates_skip cfg env primary (pre ++ p :: post) pre (p :: post)
    none hpre]
  simp [FallbackManager.runCandidates, hcreate, hval, hana]

/-- Witness for claim C1: primary claude fails at the analysis stage,
fallback openai succeeds; the outcome names openai with
`fallback_used = true`, and the trace stops at openai. -/
theorem claim1_first_success_witness :
    FallbackManager.analyze_with_fallback cfgA envA "claude" ["openai"] =
      (.ok "analysis-text" "openai" "gpt-3.5-turbo" true,
       ["claude"].flatMap (callsOf cfgA envA) ++
         [Call.create "openai", Call.validate "openai", Call.analyze "openai"]) :=
  claim1_first_success cfgA envA "claude" ["openai"] ["claude"] [] "openai"
    { model_name := "gpt-3.5-turbo" } "analysis-text" rfl (by decide) rfl rfl rfl

/-- Claim C3: if every candidate fails (configuration error, credential
validation returning false, or the analysis call raising), the result is
the failure dict whose error message carries the most recent raised
error and whose `providers_tried` is the full candidate list, in the
order tried. -/
theorem claim3_all_candidates_fail (cfg : Config) (env : ProviderEnv)
    (primary : String) (fallbacks : List String)
    (hall : ∀ q ∈ primary :: fallbacks, attemptFails cfg env q = true) :
    (FallbackManager.analyze_with_fallback cfg env primary fallbacks).1 =
      .failed ("All AI providers failed. Last error: " ++
          pyStrOfOption (lastErrAfter cfg env (primary :: fallbacks) none))
        (primary :: fallbacks) ∧
    ((FallbackManager.analyze_with_fallback cfg env primary fallbacks).1.get_providers_tried).map
        List.length = some (primary :: fallbacks).length := by
  have h := runCandidates_skip cfg env primary (primary :: fallbacks)
    (primary :: fallbacks) [] none hall
  rw [List.append_nil] at h
  unfold FallbackManager.analyze_with_fallback
  rw [h]
  simp [FallbackManager.runCandidates, AnalysisOutcome.get_providers_tried]

/-- Witness for claim C3: with every backend failing (gemini at the
validation stage, the rest at the analysis stage), the failure dict
lists all three candidates in order and carries the latest raised
error. -/
theorem claim3_all_candidates_fail_witness :
    (FallbackManager.analyze_with_fallback cfgA envFail "claude" ["gemini", "ollama"]).1 =
      .failed ("All AI providers failed. Last error: " ++
          pyStrOfOption (lastErrAfter cfgA envFail ("claude" :: ["gemini", "ollama"]) none))
        ("claude" :: ["gemini", "ollama"]) ∧
    ((FallbackManager.analyze_with_fallback cfgA envFail "claude" ["gemini", "ollama"]).1.get_providers_tried).map
        List.length = some ("claude" :: ["gemini", "ollama"]).length :=
  claim3_all_candidates_fail cfgA envFail "claude" ["gemini", "ollama"] (by decide)

/-- Claim C2 counterexample: a success dict reached after an earlier
candidate failed (partial success: the trace shows claude's analysis
call happened before openai succeeded) contains no
`providers_tried` / `providers_attempted` list at all — the key is
present only on the failure dict. -/
theorem claim2_counterexample :
    (FallbackManager.analyze_with_fallback cfgA envA "claude" ["openai"]).1.isSuccess
        = true ∧
    Call.analyze "claude" ∈
      (FallbackManager.analyze_with_fallback cfgA envA "claude" ["openai"]).2 ∧
    (FallbackManager.analyze_with_fallback cfgA envA "claude" ["openai"]).1.get_providers_tried
        = none := by
  decide

/-- Claim C2 as amended: only the failure dict carries the attempted
list; a success outcome (even a partial success) has no
`providers_tried` key, while a total failure lists every candidate —
that is, every backend tried — in the order tried. -/
theorem claim2_attempted_list (cfg : Config) (env : ProviderEnv)
    (primary : String) (fallbacks : List String) :
    ((FallbackManager.analyze_with_fallback cfg env primary fallbacks).1.isSuccess = true →
      (FallbackManager.analyze_with_fallback cfg env primary fallbacks).1.get_providers_tried
        = none) ∧
    ((FallbackManager.analyze_with_fallback cfg env primary fallbacks).1.isSuccess = false →
      (FallbackManager.analyze_with_fallback cfg env primary fallbacks).1.get_providers_tried
        = some (primary :: fallbacks)) := by
  cases hr : (FallbackManager.analyze_with_fallback cfg env primary fallbacks).1 with
  | ok a p m f =>
      simp [AnalysisOutcome.isSuccess, AnalysisOutcome.get_providers_tried]
  | failed e l =>
      unfold FallbackManager.analyze_with_fallback at hr
      have hl : l = primary :: fallbacks :=
        runCandidates_failed_eq_all cfg env primary (primary :: fallbacks)
          (primary :: fallbacks) none e l hr
      subst hl
      simp [AnalysisOutcome.isSuccess, AnalysisOutcome.get_providers_tried]

/-- Witness for the amended claim C2: a total failure yields the full
ordered candidate list. -/
theorem claim2_attempted_list_witness :
    (FallbackManager.analyze_with_fallback cfgA envFail "claude" ["gemini", "ollama"]).1.isSuccess
        = false ∧
    (FallbackManager.analyze_with_fallback cfgA envFail "claude" ["gemini", "ollama"]).1.get_providers_tried
        = some ("claude" :: ["gemini", "ollama"]) :=
  ⟨by decide,
   (claim2_attempted_list cfgA envFail "claude" ["gemini", "ollama"]).2 (by decide)⟩

/-- A successful factory availability report always covers exactly the
four named backends, in Python dict insertion order. -/
theorem get_available_shape (cfg : Config) (env : ProviderEnv)
    (avail : List (String × Bool))
    (h : ModelFactory.get_available_providers cfg env = .ok avail) :
    ∃ b1 b2 b3 b4, avail =
      [("ollama", b1), ("claude", b2), ("openai", b3), ("gemini", b4)] := by
  unfold ModelFactory.get_available_providers at h
  cases h1 : availCheck (ModelFactory.createOllama cfg cfg.AI_MODEL_NAME) with
  | error e => rw [h1] at h; simp at h
  | ok o =>
    rw [h1] at h
    cases h2 : availCheck (ModelFactory.createClaude cfg env cfg.AI_MODEL_NAME) with
    | error e => rw [h2] at h; simp at h
    | ok c =>
      rw [h2] at h
      cases h3 : availCheck (ModelFactory.createOpenAI cfg env cfg.AI_MODEL_NAME) with
      | error e => rw [h3] at h; simp at h
      | ok oa =>
        rw [h3] at h
        cases h4 : availCheck (ModelFactory.createGemini cfg env cfg.AI_MODEL_NAME) with
        | error e => rw [h4] at h; simp at h
        | ok g =>
          rw [h4] at h
          injection h with h
          exact ⟨o, c, oa, g, h.symm⟩

/-- A credential-validation call recorded by one status-loop iteration
names that iteration's backend and only happens when it was reported
configured. -/
theorem validate_mem_statusEntryFor (cfg : Config) (env : ProviderEnv)
    (n : String) (b : Bool) (m : String)
    (h : Call.validate m ∈ (statusEntryFor cfg env n b).2) : m = n ∧ b = true := by
  cases b with
  | false => simp [statusEntryFor, unconfiguredEntry] at h
  | true =>
      refine ⟨?_, rfl⟩
      unfold statusEntryFor at h
      cases hc : ModelFactory.create_provider cfg env n (getModelForProvider cfg n) with
      | error e => rw [hc] at h; simp at h
      | ok prov => rw [hc] at h; simp at h; exact h

/-- A credential-validation call recorded by the status loop belongs to
a backend the factory reported configured. -/
theorem statusLoop_validate_mem (cfg : Config) (env : ProviderEnv) :
    ∀ (l : List (String × Bool)) (m : String),
      Call.validate m ∈ (statusLoop cfg env l).2 → (m, true) ∈ l := by
  intro l
  induction l with
  | nil => intro m h; simp [statusLoop] at h
  | cons nb rest ih =>
      intro m h
      obtain ⟨n, b⟩ := nb
      simp only [statusLoop, List.mem_append] at h
      cases h with
      | inl h =>
          obtain ⟨hm, hb⟩ := validate_mem_statusEntryFor cfg env n b m h
          subst hm; subst hb
          exact List.mem_cons_self _ _
      | inr h => exact List.mem_cons_of_mem _ (ih m h)

/-- Every entry the status loop produces satisfies the readiness
invariant: `ready` implies `available` and `credentials_valid`. -/
theorem statusLoop_ready_invariant (cfg : Config) (env : ProviderEnv) :
    ∀ (l : List (String × Bool)) (pe : String × StatusEntry),
      pe ∈ (statusLoop cfg env l).1 → pe.2.ready = true →
      pe.2.available = true ∧ pe.2.credentials_valid = true := by
  intro l
  induction l with
  | nil => intro pe h hr; simp [statusLoop] at h
  | cons nb rest ih =>
      intro pe h hr
      obtain ⟨n, b⟩ := nb
      simp only [statusLoop, List.mem_cons] at h
      cases h with
      | inl h =>
          subst h
          cases b with
          | false => simp [statusEntryFor, unconfiguredEntry] at hr
          | true =>
              unfold statusEntryFor at hr ⊢
              revert hr
              cases ModelFactory.create_provider cfg env n
                  (getModelForProvider cfg n) with
              | error e => intro hr; simp at hr
              | ok prov =>
                  intro hr
                  simp at hr ⊢
                  exact hr
      | inr h => exact ih pe h hr

/-- Claim C4: for every successful `get_provider_status` snapshot, every
Provider Status Entry satisfies `ready implies available and
credentials_valid`, and every backend the factory reported unconfigured
gets the fixed `available = false, ready = false` entry with no
credential-validation call performed for it. -/
theorem claim4_provider_status_invariants (cfg : Config) (env : ProviderEnv)
    (avail : List (String × Bool))
    (h : ModelFactory.get_available_providers cfg env = .ok avail) :
    FallbackManager.get_provider_status cfg env = .ok (statusLoop cfg env avail) ∧
    (∀ pe ∈ (statusLoop cfg env avail).1, pe.2.ready = true →
      pe.2.available = true ∧ pe.2.credentials_valid = true) ∧
    (∀ name, (name, false) ∈ avail →
      (name, unconfiguredEntry) ∈ (statusLoop cfg env avail).1 ∧
      Call.validate name ∉ (statusLoop cfg env avail).2) := by
  refine ⟨?_, ?_, ?_⟩
  · unfold FallbackManager.get_provider_status
    rw [h]
  · intro pe hpe hr
    exact statusLoop_ready_invariant cfg env avail pe hpe hr
  · intro name hmem
    obtain ⟨b1, b2, b3, b4, rfl⟩ := get_available_shape cfg env avail h
    simp only [List.mem_cons, List.not_mem_nil, or_false, Prod.mk.injEq] at hmem
    have hnv : ∀ hv : Call.validate name ∈
        (statusLoop cfg env [("ollama", b1), ("claude", b2), ("openai", b3),
          ("gemini", b4)]).2, (name, true) ∈
        [("ollama", b1), ("claude", b2), ("openai", b3), ("gemini", b4)] :=
      fun hv => statusLoop_validate_mem cfg env _ name hv
    rcases hmem with ⟨hn, hb⟩ | ⟨hn, hb⟩ | ⟨hn, hb⟩ | ⟨hn, hb⟩ <;>
      subst hn <;> subst hb <;>
      refine ⟨by simp [statusLoop, statusEntryFor, unconfiguredEntry], fun hv => ?_⟩ <;>
      have hmem2 := hnv hv <;>
      simp [Prod.mk.injEq] at hmem2

/-- Witness for claim C4: with the claude key absent, the claude backend
is reported unconfigured, gets the fixed unavailable entry, and no
credential-validation call is made for it. -/
theorem claim4_provider_status_invariants_witness :
    ("claude", unconfiguredEntry) ∈
      (statusLoop cfgB envA [("ollama", true), ("claude", false), ("openai", true),
        ("gemini", true)]).1 ∧
    Call.validate "claude" ∉
      (statusLoop cfgB envA [("ollama", true), ("claude", false), ("openai", true),
        ("gemini", true)]).2 :=
  (claim4_provider_status_invariants cfgB envA
      [("ollama", true), ("claude", false), ("openai", true), ("gemini", true)]
      rfl).2.2 "claude" (by decide)

/-- Claim C5: each refresh run replaces the snapshot so that a
successful poll yields `healthy` exactly when at least one entry is
ready and `degraded` when none is (never `unhealthy`), while a poll
that raises yields `unhealthy` with zero ready providers and the error
string captured. -/
theorem claim5_refresh_snapshot (cfg : Config) (env : ProviderEnv)
    (old : HealthState) (now : Nat) :
    match FallbackManager.get_provider_status cfg env with
    | .ok ps =>
        (refresh_provider_status cfg env old now).status ≠ "unhealthy" ∧
        ((refresh_provider_status cfg env old now).status = "healthy" ↔
          0 < readyCount ps.1) ∧
        ((refresh_provider_status cfg env old now).status = "degraded" ↔
          readyCount ps.1 = 0) ∧
        (refresh_provider_status cfg env old now).error = none
    | .error e =>
        (refresh_provider_status cfg env old now).status = "unhealthy" ∧
        (refresh_provider_status cfg env old now).ready_providers = 0 ∧
        (refresh_provider_status cfg env old now).error = some (pyErrStr e) := by
  cases hs : FallbackManager.get_provider_status cfg env with
  | ok ps =>
      unfold refresh_provider_status
      rw [hs]
      by_cases hr : 0 < readyCount ps.1
      · have h1 : readyCount ps.1 ≠ 0 := Nat.pos_iff_ne_zero.mp hr
        simp [hr, h1]
      · have h0 : readyCount ps.1 = 0 := Nat.eq_zero_of_not_pos (by exact hr)
        simp [hr, h0]
  | error e =>
      unfold refresh_provider_status
      rw [hs]
      simp

/-- Claim C6: `/health` responds 503 exactly when the cached snapshot's
status is `unhealthy`, and 200 in every other case — the `degraded`
state and the initial `unknown` state included. -/
theorem claim6_health_code (st : HealthState) :
    ((health_check st).2 = 503 ↔ st.status = "unhealthy") ∧
    ((health_check st).2 = 200 ↔ st.status ≠ "unhealthy") := by
  unfold health_check
  by_cases h : st.status = "unhealthy"
  · simp [h]
  · simp [h]

/-- Witness for claim C6: the initial `unknown` snapshot is served with
HTTP 200. -/
theorem claim6_health_code_witness :
    (health_check (initial_health_state cfgA)).2 = 200 :=
  ((claim6_health_code (initial_health_state cfgA)).2).mpr (by decide)

/-- Claim C7: a `/alert` request whose body is not valid JSON
(`request.get_json()` returned `None`) gets HTTP 400, and the request
performs no backend-directed call at all — `analyze_with_fallback` is
never invoked and no provider is instantiated, validated or called. -/
theorem claim7_invalid_json (cfg : Config) (env : ProviderEnv)
    (primary : String) (fallbacks : List String) (discord : Except String Nat) :
    receive_alert cfg env primary fallbacks none discord =
      ({ code := 400, status := "error",
         message := "Request body must be valid JSON", providers_tried := none,
         provider := none, fallback_used := none, model := none }, []) := rfl

/-- Claim C8: the factory's availability report depends only on the
configured credentials / base URL — the `validate` and `analyze`
oracles, the operations that touch the network, never influence it —
and when SDK construction succeeds it reports, for each of the four
backends, exactly whether the minimum required configuration is
present (construction attempted, only the configuration `ValueError`
caught). -/
theorem claim8_available_providers (cfg : Config)
    (c : String → Except String Unit) (v v' : String → Bool)
    (a a' : String → Except String String)
    (hc : ∀ p, c p = .ok ()) :
    ModelFactory.get_available_providers cfg ⟨c, v, a⟩ =
      ModelFactory.get_available_providers cfg ⟨c, v', a'⟩ ∧
    ModelFactory.get_available_providers cfg ⟨c, v, a⟩ =
      .ok [("ollama", cfg.OLLAMA_BASE_URL != ""),
           ("claude", optPresent cfg.ANTHROPIC_API_KEY),
           ("openai", optPresent cfg.OPENAI_API_KEY),
           ("gemini", optPresent cfg.GOOGLE_API_KEY)] := by
  refine ⟨rfl, ?_⟩
  cases h1 : cfg.OLLAMA_BASE_URL == "" <;>
    cases h2 : optPresent cfg.ANTHROPIC_API_KEY <;>
    cases h3 : optPresent cfg.OPENAI_API_KEY <;>
    cases h4 : optPresent cfg.GOOGLE_API_KEY <;>
    simp [ModelFactory.get_available_providers, availCheck,
      ModelFactory.createOllama, ModelFactory.createClaude,
      ModelFactory.createOpenAI, ModelFactory.createGemini,
      h1, h2, h3, h4, hc, bne]

/-- Witness for claim C8: with the claude key absent and the rest
configured, the report marks exactly claude unconfigured. -/
theorem claim8_available_providers_witness :
    ModelFactory.get_available_providers cfgB
        ⟨fun _ => .ok (), fun _ => true, fun _ => .error "x"⟩ =
      .ok [("ollama", cfgB.OLLAMA_BASE_URL != ""),
           ("claude", optPresent cfgB.ANTHROPIC_API_KEY),
           ("openai", optPresent cfgB.OPENAI_API_KEY),
           ("gemini", optPresent cfgB.GOOGLE_API_KEY)] :=
  (claim8_available_providers cfgB (fun _ => .ok ()) (fun _ => true)
      (fun _ => true) (fun _ => .error "x") (fun _ => .error "x")
      (fun _ => rfl)).2

/-- Claim C9: every provider variant's `validate_credentials` is a
total boolean function of the backend call outcome — it never raises —
returning false whenever the underlying call raises (timeouts
included) and true exactly on a successful minimal live call: any
returned response for claude/openai given a non-empty key, an HTTP 200
for ollama, a response with text for gemini. -/
theorem claim9_validate_total (api_key msg : String) (status_code : Nat)
    (text : Option String) :
    ClaudeProvider.validate_credentials api_key (.exn msg) = false ∧
    OpenAIProvider.validate_credentials api_key (.exn msg) = false ∧
    OllamaProvider.validate_credentials (.exn msg) = false ∧
    GeminiProvider.validate_credentials api_key (.exn msg) = false ∧
    ClaudeProvider.validate_credentials api_key (.ok ()) = (api_key != "") ∧
    OpenAIProvider.validate_credentials api_key (.ok ()) = (api_key != "") ∧
    OllamaProvider.validate_credentials (.ok status_code) = (status_code == 200) ∧
    GeminiProvider.validate_credentials api_key (.ok text) =
      ((api_key != "") && text.isSome) := by
  unfold ClaudeProvider.validate_credentials OpenAIProvider.validate_credentials
    OllamaProvider.validate_credentials GeminiProvider.validate_credentials
  cases h : api_key == "" <;> simp [h, bne]

/-- Claim C10: when `get_provider_status` raises during a `/status`
request, the handler responds with HTTP status code 50 — not 500 — and
a body with status `unhealthy` carrying the error string. -/
theorem claim10_status_error_code (cfg : Config) (env : ProviderEnv) (e : PyError)
    (h : FallbackManager.get_provider_status cfg env = .error e) :
    status_endpoint cfg env =
      { code := 50, status := "unhealthy", error := some (pyErrStr e),
        ready_providers := none, total_providers := none } ∧
    (status_endpoint cfg env).code ≠ 500 := by
  unfold status_endpoint
  rw [h]
  exact ⟨rfl, by simp⟩

/-- Witness for claim C10: with every SDK construction raising, the
synchronous status poll raises and the handler answers with code 50. -/
theorem claim10_status_error_code_witness :
    status_endpoint cfgA envErr =
      { code := 50, status := "unhealthy",
        error := some (pyErrStr (PyError.other "client construction failed")),
        ready_providers := none, total_providers := none } :=
  (claim10_status_error_code cfgA envErr (.other "client construction failed")
      rfl).1

/-- Witness for claim C5: a poll that raises (every SDK construction
failing) flips the snapshot to `unhealthy` with zero ready providers
and the error captured. -/
theorem claim5_refresh_snapshot_witness :
    (refresh_provider_status cfgA envErr (initial_health_state cfgA) 0).status =
        "unhealthy" ∧
    (refresh_provider_status cfgA envErr (initial_health_state cfgA) 0).ready_providers
        = 0 ∧
    (refresh_provider_status cfgA envErr (initial_health_state cfgA) 0).error =
      some (pyErrStr (PyError.other "client construction failed")) :=
  claim5_refresh_snapshot cfgA envErr (initial_health_state cfgA) 0
